import Mathlib

/-!
Verification of the `fast-api-server` service (okmethod/ygo-solitaire).

The embedding models the three source files:
  * `src/settings.py`  — module-level environment snapshot, the pydantic
    `Settings(BaseSettings)` class, and the `lru_cache`-memoized `get_settings`;
  * `src/routes/heartbeat.py` — the single route handler;
  * `src/main.py`      — logging-config load, settings load, app construction
    with CORS middleware and the mounted route group.

A process environment is an association list of variable names to values.
`os.getenv` is a case-sensitive lookup.  Pydantic `BaseSettings` (the library
the source's `Settings` derives from) populates each field, in priority order,
from an environment variable whose name matches the field name
case-insensitively, falling back to the field's declared default; a field of a
complex type (here `allowed_origins : list[str]`) has its environment value
parsed as JSON, and a parse failure raises an error.
-/

namespace FastApiServer

/-- A process environment: variable names bound to string values. -/
abbrev Env : Type := List (String × String)

/-- `os.getenv`: exact, case-sensitive lookup of a variable. -/
def getenv (env : Env) (name : String) : Option String :=
  (List.find? (fun p => p.1 == name) env).map (fun p => p.2)

/-- ASCII upper-casing of a string (extensionally `String.toUpper`, written
over the character list so that it evaluates by reduction). -/
def toUpperStr (s : String) : String :=
  String.mk (s.data.map Char.toUpper)

/-- Pydantic `BaseSettings` environment lookup: the field name is matched
against variable names case-insensitively (`case_sensitive=False`, the
default). -/
def getenvCI (env : Env) (name : String) : Option String :=
  (List.find? (fun p => toUpperStr p.1 == toUpperStr name) env).map (fun p => p.2)

/-- The module-level bindings of `src/settings.py` lines 6-7, evaluated once
when the module is imported:
`google_cloud_project = os.getenv("GOOGLE_CLOUD_PROJECT")` and
`default_region = os.getenv("DEFAULT_REGION")`. -/
structure ModuleSnapshot where
  google_cloud_project : Option String
  default_region : Option String
deriving DecidableEq, Repr

/-- Importing `src.settings` evaluates the two `os.getenv` calls against the
environment as it stands at import time. -/
def importSettingsModule (env : Env) : ModuleSnapshot :=
  { google_cloud_project := getenv env "GOOGLE_CLOUD_PROJECT"
    default_region := getenv env "DEFAULT_REGION" }

/-- The `Settings` value object of `src/settings.py` lines 10-17. -/
structure Settings where
  app_name : String
  app_version : String
  allowed_origins : List String
  google_cloud_project : Option String
  default_region : Option String
deriving DecidableEq, Repr

/-- Skip JSON whitespace. -/
def skipWs : List Char → List Char
  | c :: cs => if c = ' ' ∨ c = '\t' ∨ c = '\n' ∨ c = '\r' then skipWs cs else c :: cs
  | [] => []

/-- Translate a JSON escape character (simplified: the common single-character
escapes; `\uXXXX` escapes are out of scope of this model). -/
def unescapeChar (c : Char) : Char :=
  if c = 'n' then '\n' else if c = 't' then '\t' else if c = 'r' then '\r' else c

/-- Parse the body of a JSON string, after the opening quote; returns the
decoded string and the remaining input after the closing quote. -/
def parseStringBody : List Char → Option (String × List Char)
  | [] => none
  | c :: cs =>
    if c = '"' then some ("", cs)
    else if c = '\\' then
      match cs with
      | [] => none
      | d :: ds => (parseStringBody ds).map (fun r => (String.mk [unescapeChar d] ++ r.1, r.2))
    else (parseStringBody cs).map (fun r => (String.mk [c] ++ r.1, r.2))

/-- Parse a comma-separated sequence of JSON strings up to a closing `]`.
Fueled recursion; fuel larger than the input length never runs out. -/
def parseItems : Nat → List Char → Option (List String × List Char)
  | 0, _ => none
  | fuel + 1, cs =>
    match skipWs cs with
    | '"' :: rest =>
      match parseStringBody rest with
      | none => none
      | some (s, rest2) =>
        match skipWs rest2 with
        | ',' :: rest3 =>
          match parseItems fuel rest3 with
          | none => none
          | some (ss, rest4) => some (s :: ss, rest4)
        | ']' :: rest3 => some ([s], rest3)
        | _ => none
    | _ => none

/-- `json.loads` restricted to JSON arrays of strings, as pydantic applies it
to an environment value for the complex-typed field `allowed_origins`;
any other input (non-array, non-string elements, trailing garbage) fails. -/
def parseJsonStringList (s : String) : Option (List String) :=
  match skipWs s.toList with
  | '[' :: rest =>
    match skipWs rest with
    | ']' :: rest2 => if skipWs rest2 = [] then some [] else none
    | cs =>
      match parseItems (s.length + 1) cs with
      | some (items, rest2) => if skipWs rest2 = [] then some items else none
      | none => none
  | _ => none

/-- Constructing `Settings()` (pydantic `BaseSettings` semantics): each field
takes the matching environment variable when present (case-insensitive name
match), else its declared default.  The defaults are those written in
`src/settings.py`: `"Sample API"`, `"0.1.0"`, `[]`, and the two module-level
snapshot values.  The environment value for `allowed_origins` is parsed as a
JSON array of strings; a parse failure raises (`Except.error`). -/
def Settings.ofOrigins (snap : ModuleSnapshot) (env : Env)
    (origins : List String) : Settings :=
  { app_name := (getenvCI env "app_name").getD "Sample API"
    app_version := (getenvCI env "app_version").getD "0.1.0"
    allowed_origins := origins
    google_cloud_project := (getenvCI env "google_cloud_project").orElse
      (fun _ => snap.google_cloud_project)
    default_region := (getenvCI env "default_region").orElse
      (fun _ => snap.default_region) }

/-- Constructing `Settings()`: the `allowed_origins` environment value, when
present, must parse as a JSON array of strings, else the constructor raises;
when absent the declared default `[]` is used. -/
def Settings.construct (snap : ModuleSnapshot) (env : Env) : Except String Settings :=
  match getenvCI env "allowed_origins" with
  | none => Except.ok (Settings.ofOrigins snap env [])
  | some raw =>
    match parseJsonStringList raw with
    | some l => Except.ok (Settings.ofOrigins snap env l)
    | none => Except.error "error parsing value for field allowed_origins"

/-- Mutable process state: the current environment and the `lru_cache` of
`get_settings` (empty until the first successful call). -/
structure ProcState where
  env : Env
  cache : Option Settings
deriving DecidableEq, Repr

/-- `get_settings` (`src/settings.py` lines 20-22): `lru_cache`-memoized
construction of `Settings`.  A cached value is returned as-is; otherwise
`Settings()` is constructed from the current environment and cached on
success (Python's `lru_cache` does not cache raised exceptions). -/
def get_settings (snap : ModuleSnapshot) (st : ProcState) :
    Except String (Settings × ProcState) :=
  match st.cache with
  | some s => Except.ok (s, st)
  | none =>
    match Settings.construct snap st.env with
    | Except.ok s => Except.ok (s, { st with cache := some s })
    | Except.error e => Except.error e

/-- Modelled from the spec: `SimpleMessageResponse` lives in
`src/schemas/response_body.py`, which is not among the provided sources; the
spec describes the Heartbeat Response as a value object with a single string
attribute `message`. -/
structure SimpleMessageResponse where
  message : String
deriving DecidableEq, Repr

/-- The handler of `src/routes/heartbeat.py` lines 11-12: takes no parameters
and returns `SimpleMessageResponse(message="alive")`. -/
def heartbeat : SimpleMessageResponse :=
  { message := "alive" }

/-- A JSON value (only the constructors this service's responses need). -/
inductive Json where
  | str : String → Json
  | obj : List (String × Json) → Json

/-- FastAPI serializes the returned response model as a JSON object with one
member per field. -/
def SimpleMessageResponse.toJson (r : SimpleMessageResponse) : Json :=
  Json.obj [("message", Json.str r.message)]

/-- An inbound HTTP request. -/
structure Request where
  method : String
  path : String
  headers : List (String × String)
  queryParams : List (String × String)

/-- Request dispatch for the application's route table: the router of
`heartbeat.py` is mounted under `/api/heartbeat` with an empty path suffix
(`main.py` lines 35-39), so `GET /api/heartbeat` reaches `heartbeat`, whose
result is serialized with the framework's default success status 200.  Any
other request misses the route table (`none`: the framework's 404 handling,
outside this system).  The process state is threaded through to make the
absence of side effects expressible. -/
def handleRequest (st : ProcState) (req : Request) :
    Option ((Nat × Json) × ProcState) :=
  if req.method == "GET" && req.path == "/api/heartbeat" then
    some ((200, SimpleMessageResponse.toJson heartbeat), st)
  else
    none

/-- The CORS middleware configuration (`main.py` lines 21-33). -/
structure CORSConfig where
  allow_origins : List String
  allow_credentials : Bool
  allow_methods : List String
  allow_headers : List String
  expose_headers : List String
deriving DecidableEq, Repr

/-- The `app.add_middleware(CORSMiddleware, ...)` call of `main.py`
lines 21-33, with the literal arguments written there. -/
def buildCors (settings : Settings) : CORSConfig :=
  { allow_origins := settings.allowed_origins
    allow_credentials := false
    allow_methods := ["GET", "POST", "OPTIONS"]
    allow_headers := ["Content-Type", "Accept", "Cache-Control", "Origin"]
    expose_headers := ["Content-Disposition"] }

/-- The constructed FastAPI application: its metadata, CORS policy, and route
table (method, full path). -/
structure App where
  title : String
  version : String
  cors : CORSConfig
  routes : List (String × String)
deriving DecidableEq, Repr

/-- A filesystem, mapping paths to file contents when present. -/
abbrev FileSystem : Type := String → Option String

/-- `logging.config.fileConfig("src/logging.ini", ...)` (`main.py` line 10):
reads the named file; if it is absent or unreadable the call raises. -/
def fileConfig (fs : FileSystem) (path : String) : Except String Unit :=
  match fs path with
  | none => Except.error ("logging config file not found: " ++ path)
  | some _ => Except.ok ()

/-- Application startup (`src/main.py`, top to bottom): importing
`src.settings` takes the environment snapshot (module-level `os.getenv`);
then `fileConfig` loads `src/logging.ini`; then `get_settings()` is called
for the first time; then the FastAPI app is built with the CORS middleware
and the heartbeat router mounted at `/api/heartbeat`.  Any raised error
aborts startup before the app exists. -/
def startup (fs : FileSystem) (env : Env) : Except String (App × ProcState) :=
  match fileConfig fs "src/logging.ini" with
  | Except.error e => Except.error e
  | Except.ok _ =>
    match get_settings (importSettingsModule env) { env := env, cache := none } with
    | Except.error e => Except.error e
    | Except.ok (settings, st) =>
      Except.ok
        ({ title := settings.app_name
           version := settings.app_version
           cors := buildCors settings
           routes := [("GET", "/api/heartbeat")] }, st)

end FastApiServer

namespace FastApiServer

/-! ## Shared concrete values used by witnesses -/

/-- The settings obtained in an empty environment: all defaults. -/
def defaultSettings : Settings :=
  { app_name := "Sample API"
    app_version := "0.1.0"
    allowed_origins := []
    google_cloud_project := none
    default_region := none }

/-! ## Claim theorems -/

/-- C1: every GET request to `/api/heartbeat` — whatever its headers, query
parameters, or the process state (hence however many times it is repeated) —
is answered with status 200 and body the JSON object with the single member
`message` bound to `"alive"`, and the process state is unchanged. -/
theorem c1_heartbeat_get_ok (st : ProcState) (req : Request)
    (hm : req.method = "GET") (hp : req.path = "/api/heartbeat") :
    handleRequest st req
      = some ((200, Json.obj [("message", Json.str "alive")]), st) := by
  simp [handleRequest, hm, hp, heartbeat, SimpleMessageResponse.toJson]

/-- Witness for C1 at a concrete request carrying headers and query
parameters. -/
theorem c1_heartbeat_get_ok_witness :
    handleRequest { env := [], cache := none }
        { method := "GET", path := "/api/heartbeat",
          headers := [("X-Probe", "1")], queryParams := [("q", "x")] }
      = some ((200, Json.obj [("message", Json.str "alive")]),
          { env := [], cache := none }) :=
  c1_heartbeat_get_ok _ _ rfl rfl

/-- C2: once a call to `get_settings` has returned (populating the cache),
every later call returns the very same `Settings` value, even if the process
environment has changed arbitrarily in between: the environment is not
re-read. -/
theorem c2_get_settings_memoized (snap : ModuleSnapshot) (st st' : ProcState)
    (s : Settings) (h : get_settings snap st = Except.ok (s, st'))
    (env' : Env) :
    get_settings snap { st' with env := env' }
      = Except.ok (s, { st' with env := env' }) := by
  have hc : st'.cache = some s := by
    unfold get_settings at h
    cases hcache : st.cache with
    | some t =>
      rw [hcache] at h
      cases h
      exact hcache
    | none =>
      rw [hcache] at h
      cases hcons : Settings.construct snap st.env with
      | ok u => rw [hcons] at h; cases h; rfl
      | error e => rw [hcons] at h; cases h
  unfold get_settings
  simp [hc]

/-- Witness for C2: a first call in an empty environment, then a second call
after `GOOGLE_CLOUD_PROJECT` has been set; the cached default settings are
returned, not a re-read of the environment. -/
theorem c2_get_settings_memoized_witness :
    get_settings ⟨none, none⟩
        { env := [("GOOGLE_CLOUD_PROJECT", "changed-later")],
          cache := some defaultSettings }
      = Except.ok (defaultSettings,
          { env := [("GOOGLE_CLOUD_PROJECT", "changed-later")],
            cache := some defaultSettings }) :=
  c2_get_settings_memoized ⟨none, none⟩ { env := [], cache := none }
    { env := [], cache := some defaultSettings } defaultSettings rfl
    [("GOOGLE_CLOUD_PROJECT", "changed-later")]

end FastApiServer

namespace FastApiServer

/-- C7: whenever startup succeeds, the constructed application carries exactly
the CORS policy of `main.py`: origins taken from the loaded settings'
`allowed_origins`, credentials disallowed, methods GET/POST/OPTIONS, request
headers Content-Type/Accept/Cache-Control/Origin, exposed response header
Content-Disposition. -/
theorem c7_cors_policy (fs : FileSystem) (env : Env) (app : App)
    (st : ProcState) (h : startup fs env = Except.ok (app, st)) :
    app.cors.allow_credentials = false
    ∧ app.cors.allow_methods = ["GET", "POST", "OPTIONS"]
    ∧ app.cors.allow_headers = ["Content-Type", "Accept", "Cache-Control", "Origin"]
    ∧ app.cors.expose_headers = ["Content-Disposition"]
    ∧ ∃ s st', get_settings (importSettingsModule env) { env := env, cache := none }
        = Except.ok (s, st') ∧ app.cors.allow_origins = s.allowed_origins := by
  unfold startup at h
  cases hfc : fileConfig fs "src/logging.ini" with
  | error e => rw [hfc] at h; cases h
  | ok u =>
    rw [hfc] at h
    cases hgs : get_settings (importSettingsModule env) { env := env, cache := none } with
    | error e => rw [hgs] at h; cases h
    | ok p =>
      rw [hgs] at h
      cases p with
      | mk settingsv stv =>
        cases h
        exact ⟨rfl, rfl, rfl, rfl, _, _, rfl, rfl⟩

/-- Witness for C7: startup in an empty environment with a filesystem holding
only the logging configuration file. -/
theorem c7_cors_policy_witness :
    CORSConfig.allow_credentials (App.cors
        { title := "Sample API", version := "0.1.0",
          cors := buildCors defaultSettings,
          routes := [("GET", "/api/heartbeat")] }) = false
    ∧ CORSConfig.allow_methods (App.cors
        { title := "Sample API", version := "0.1.0",
          cors := buildCors defaultSettings,
          routes := [("GET", "/api/heartbeat")] }) = ["GET", "POST", "OPTIONS"]
    ∧ CORSConfig.allow_headers (App.cors
        { title := "Sample API", version := "0.1.0",
          cors := buildCors defaultSettings,
          routes := [("GET", "/api/heartbeat")] })
        = ["Content-Type", "Accept", "Cache-Control", "Origin"]
    ∧ CORSConfig.expose_headers (App.cors
        { title := "Sample API", version := "0.1.0",
          cors := buildCors defaultSettings,
          routes := [("GET", "/api/heartbeat")] }) = ["Content-Disposition"]
    ∧ ∃ s st', get_settings (importSettingsModule []) { env := [], cache := none }
        = Except.ok (s, st')
        ∧ CORSConfig.allow_origins (App.cors
            { title := "Sample API", version := "0.1.0",
              cors := buildCors defaultSettings,
              routes := [("GET", "/api/heartbeat")] }) = s.allowed_origins :=
  c7_cors_policy (fun p => if p == "src/logging.ini" then some "" else none) []
    { title := "Sample API", version := "0.1.0",
      cors := buildCors defaultSettings,
      routes := [("GET", "/api/heartbeat")] }
    { env := [], cache := some defaultSettings } rfl

/-- C9: the heartbeat handler is deterministic and stateless — any two
dispatched invocations, from any two process states, produce the identical
response (status 200, message "alive") and neither reads from nor writes to
the process state (the state is returned unchanged). -/
theorem c9_handler_deterministic_stateless (st₁ st₂ : ProcState)
    (req₁ req₂ : Request) (r₁ r₂ : Nat × Json) (st₁' st₂' : ProcState)
    (h₁ : handleRequest st₁ req₁ = some (r₁, st₁'))
    (h₂ : handleRequest st₂ req₂ = some (r₂, st₂')) :
    r₁ = r₂
    ∧ r₁ = (200, Json.obj [("message", Json.str "alive")])
    ∧ st₁' = st₁ ∧ st₂' = st₂ := by
  unfold handleRequest at h₁ h₂
  by_cases c₁ : (req₁.method == "GET" && req₁.path == "/api/heartbeat") = true
  · rw [if_pos c₁] at h₁
    by_cases c₂ : (req₂.method == "GET" && req₂.path == "/api/heartbeat") = true
    · rw [if_pos c₂] at h₂
      cases h₁; cases h₂
      exact ⟨rfl, rfl, rfl, rfl⟩
    · rw [if_neg c₂] at h₂; cases h₂
  · rw [if_neg c₁] at h₁; cases h₁

/-- Witness for C9: two invocations from different states, with different
headers. -/
theorem c9_handler_deterministic_stateless_witness :
    ((200, Json.obj [("message", Json.str "alive")]) : Nat × Json)
        = (200, Json.obj [("message", Json.str "alive")])
    ∧ ((200, Json.obj [("message", Json.str "alive")]) : Nat × Json)
        = (200, Json.obj [("message", Json.str "alive")])
    ∧ ({ env := [], cache := none } : ProcState) = { env := [], cache := none }
    ∧ ({ env := [("A", "b")], cache := some defaultSettings } : ProcState)
        = { env := [("A", "b")], cache := some defaultSettings } :=
  c9_handler_deterministic_stateless
    { env := [], cache := none }
    { env := [("A", "b")], cache := some defaultSettings }
    { method := "GET", path := "/api/heartbeat", headers := [], queryParams := [] }
    { method := "GET", path := "/api/heartbeat", headers := [("H", "v")],
      queryParams := [("k", "v")] }
    (200, Json.obj [("message", Json.str "alive")])
    (200, Json.obj [("message", Json.str "alive")])
    { env := [], cache := none }
    { env := [("A", "b")], cache := some defaultSettings }
    rfl rfl

/-- C10: startup reads `src/logging.ini` before the settings are loaded and
before the app is built: when the file is absent, startup fails with the
logging-configuration error (whatever the environment, even one in which
settings construction would itself fail), and a successful startup implies
the file was present. -/
theorem c10_logging_config_required (fs : FileSystem) (env : Env) :
    (fs "src/logging.ini" = none →
      startup fs env = Except.error "logging config file not found: src/logging.ini")
    ∧ (∀ app st, startup fs env = Except.ok (app, st) →
        (fs "src/logging.ini").isSome = true) := by
  constructor
  · intro habs
    unfold startup fileConfig
    rw [habs]
    rfl
  · intro app st h
    cases hfile : fs "src/logging.ini" with
    | some c => rfl
    | none =>
      unfold startup fileConfig at h
      rw [hfile] at h
      simp [Bind.bind, Except.bind] at h

/-- Witness for C10: an empty filesystem (first conjunct at an environment
that would otherwise produce valid settings). -/
theorem c10_logging_config_required_witness :
    startup (fun _ => none) [("GOOGLE_CLOUD_PROJECT", "p")]
      = Except.error "logging config file not found: src/logging.ini" :=
  (c10_logging_config_required (fun _ => none)
    [("GOOGLE_CLOUD_PROJECT", "p")]).1 rfl

end FastApiServer

namespace FastApiServer

/-! ## Helper lemmas shared across claims -/

/-- When every variable name in an environment is already upper-case (the
POSIX convention; every name this service documents is upper-case), the
case-insensitive pydantic lookup agrees with the exact lookup of the
upper-cased field name. -/
theorem getenvCI_eq_getenv_of_upper (env : Env) (name : String)
    (hkeys : ∀ p ∈ env, toUpperStr p.1 = p.1) :
    getenvCI env name = getenv env (toUpperStr name) := by
  induction env with
  | nil => rfl
  | cons q rest ih =>
    have hq : toUpperStr q.1 = q.1 := hkeys q (List.mem_cons_self q rest)
    have hrest : ∀ p ∈ rest, toUpperStr p.1 = p.1 :=
      fun p hp => hkeys p (List.mem_cons_of_mem q hp)
    simp only [getenvCI, getenv, List.find?]
    rw [hq]
    cases hb : (q.1 == toUpperStr name) with
    | true => rfl
    | false => exact ih hrest

/-- A successfully constructed `Settings` carries, for each of the two
optional fields, the call-time environment value when present, else
the import-time snapshot value. -/
theorem Settings.construct_optional_fields (snap : ModuleSnapshot) (env : Env)
    (s : Settings) (hs : Settings.construct snap env = Except.ok s) :
    s.google_cloud_project
      = (getenvCI env "google_cloud_project").orElse
          (fun _ => snap.google_cloud_project)
    ∧ s.default_region
      = (getenvCI env "default_region").orElse (fun _ => snap.default_region) := by
  unfold Settings.construct at hs
  cases hao : getenvCI env "allowed_origins" with
  | none => rw [hao] at hs; cases hs; exact ⟨rfl, rfl⟩
  | some raw =>
    rw [hao] at hs
    have hs' : (match parseJsonStringList raw with
        | some l => Except.ok (Settings.ofOrigins snap env l)
        | none => Except.error "error parsing value for field allowed_origins")
        = Except.ok s := hs
    cases hp : parseJsonStringList raw with
    | some l => rw [hp] at hs'; cases hs'; exact ⟨rfl, rfl⟩
    | none => rw [hp] at hs'; cases hs'

/-- A first `get_settings` call (empty cache) that returns `s` did so by
constructing `s` from the call-time environment. -/
theorem get_settings_first_call (snap : ModuleSnapshot) (env : Env)
    (s : Settings) (st' : ProcState)
    (h : get_settings snap { env := env, cache := none } = Except.ok (s, st')) :
    Settings.construct snap env = Except.ok s := by
  have hred : get_settings snap { env := env, cache := none }
      = match Settings.construct snap env with
        | Except.ok u => Except.ok (u, { env := env, cache := some u })
        | Except.error e => Except.error e := rfl
  rw [hred] at h
  cases hcons : Settings.construct snap env with
  | ok u => rw [hcons] at h; cases h; rfl
  | error e => rw [hcons] at h; cases h

end FastApiServer

namespace FastApiServer

/-- C3 as stated is false: `Settings` derives from pydantic `BaseSettings`,
which populates `app_name` from an environment variable of matching name, so
the application name is externally configurable.  In an environment binding
`APP_NAME`, the constructed settings do not carry the compile-time default. -/
theorem c3_counterexample :
    Except.map Settings.app_name
        (Settings.construct ⟨none, none⟩ [("APP_NAME", "Renamed API")])
      = Except.ok "Renamed API"
    ∧ "Renamed API" ≠ "Sample API" :=
  ⟨rfl, by decide⟩

/-- C3 amended: whenever the environment binds none of `APP_NAME`,
`APP_VERSION`, `ALLOWED_ORIGINS` (under pydantic's case-insensitive
matching), the constructed settings carry the compile-time defaults
"Sample API", "0.1.0" and the empty origin sequence. -/
theorem c3_defaults_when_unset (snap : ModuleSnapshot) (env : Env)
    (h1 : getenvCI env "app_name" = none)
    (h2 : getenvCI env "app_version" = none)
    (h3 : getenvCI env "allowed_origins" = none) :
    Except.map (fun s => (s.app_name, s.app_version, s.allowed_origins))
        (Settings.construct snap env)
      = Except.ok ("Sample API", "0.1.0", ([] : List String)) := by
  unfold Settings.construct
  rw [h3]
  simp [Settings.ofOrigins, h1, h2, Except.map]

/-- Witness for the amended C3: an environment that binds only
`GOOGLE_CLOUD_PROJECT`. -/
theorem c3_defaults_when_unset_witness :
    Except.map (fun s => (s.app_name, s.app_version, s.allowed_origins))
        (Settings.construct ⟨none, none⟩ [("GOOGLE_CLOUD_PROJECT", "p")])
      = Except.ok ("Sample API", "0.1.0", ([] : List String)) :=
  c3_defaults_when_unset ⟨none, none⟩ [("GOOGLE_CLOUD_PROJECT", "p")] rfl rfl rfl

/-- C4 as stated is false: the two variables are first read when
`src.settings` is imported, not at the first `get_settings()` call.  In a
process whose environment bound `GOOGLE_CLOUD_PROJECT = "p0"` at import time
and where the variable has been removed before the first `get_settings()`
call, the claim demands that the result reflect the call-time environment
(field `none`), but the code yields the import-time value `some "p0"`. -/
theorem c4_counterexample :
    Except.map (fun r => r.1.google_cloud_project)
        (get_settings (importSettingsModule [("GOOGLE_CLOUD_PROJECT", "p0")])
          { env := [], cache := none })
      = Except.ok (some "p0")
    ∧ some "p0" ≠ (none : Option String) :=
  ⟨rfl, by decide⟩

/-- C4 amended: each of the two variables is read at module import, and read
again by pydantic at the first `get_settings()` call with the call-time value
taking priority; hence a variable set (to any value) before the first call is
observed, while a variable unset before the first call falls back to
the import-time snapshot. -/
theorem c4_env_read_times (env0 env1 : Env) (s : Settings) (st' : ProcState)
    (h : get_settings (importSettingsModule env0) { env := env1, cache := none }
      = Except.ok (s, st')) :
    (∀ v, getenvCI env1 "google_cloud_project" = some v →
      s.google_cloud_project = some v)
    ∧ (getenvCI env1 "google_cloud_project" = none →
        s.google_cloud_project = getenv env0 "GOOGLE_CLOUD_PROJECT")
    ∧ (∀ v, getenvCI env1 "default_region" = some v → s.default_region = some v)
    ∧ (getenvCI env1 "default_region" = none →
        s.default_region = getenv env0 "DEFAULT_REGION") := by
  have hs := get_settings_first_call (importSettingsModule env0) env1 s st' h
  obtain ⟨hg, hd⟩ := Settings.construct_optional_fields _ _ _ hs
  refine ⟨?_, ?_, ?_, ?_⟩
  · intro v hv; rw [hg, hv]; rfl
  · intro hn; rw [hg, hn]; rfl
  · intro v hv; rw [hd, hv]; rfl
  · intro hn; rw [hd, hn]; rfl

/-- Witness for the amended C4: `GOOGLE_CLOUD_PROJECT` is re-set
between import and first call (call-time value observed); `DEFAULT_REGION` is unset
between import and first call (import-time value kept). -/
theorem c4_env_read_times_witness :
    Settings.default_region ⟨"Sample API", "0.1.0", [], some "p1", some "r0"⟩
      = getenv [("GOOGLE_CLOUD_PROJECT", "p0"), ("DEFAULT_REGION", "r0")]
          "DEFAULT_REGION" :=
  (c4_env_read_times [("GOOGLE_CLOUD_PROJECT", "p0"), ("DEFAULT_REGION", "r0")]
    [("GOOGLE_CLOUD_PROJECT", "p1")]
    ⟨"Sample API", "0.1.0", [], some "p1", some "r0"⟩
    ⟨[("GOOGLE_CLOUD_PROJECT", "p1")],
      some ⟨"Sample API", "0.1.0", [], some "p1", some "r0"⟩⟩
    rfl).2.2.2 rfl

/-- C5 as stated is false: with `ALLOWED_ORIGINS` bound to a string that is
not valid JSON, pydantic's parsing of the complex-typed `allowed_origins`
field raises, so the first `get_settings()` call fails instead of returning
a value. -/
theorem c5_counterexample :
    get_settings (importSettingsModule [("ALLOWED_ORIGINS", "not-json")])
        { env := [("ALLOWED_ORIGINS", "not-json")], cache := none }
      = Except.error "error parsing value for field allowed_origins" :=
  rfl

/-- C5 amended: settings loading succeeds in every environment in which
`ALLOWED_ORIGINS` is not bound — in particular whatever the values or
absence of `GOOGLE_CLOUD_PROJECT`, `DEFAULT_REGION`, or any other variable of
simple string type — and absent optional variables yield the optional-empty
value rather than an error. -/
theorem c5_no_failure_without_origins (snap : ModuleSnapshot) (env : Env)
    (h : getenvCI env "allowed_origins" = none) :
    ∃ s st', get_settings snap { env := env, cache := none }
      = Except.ok (s, st') := by
  have hcons : Settings.construct snap env
      = Except.ok (Settings.ofOrigins snap env []) := by
    unfold Settings.construct
    rw [h]
  have hred : get_settings snap { env := env, cache := none }
      = match Settings.construct snap env with
        | Except.ok u => Except.ok (u, { env := env, cache := some u })
        | Except.error e => Except.error e := rfl
  refine ⟨Settings.ofOrigins snap env [],
    { env := env, cache := some (Settings.ofOrigins snap env []) }, ?_⟩
  rw [hred, hcons]

/-- Witness for the amended C5: an environment with an arbitrary string in
`GOOGLE_CLOUD_PROJECT` and an unrelated junk variable. -/
theorem c5_no_failure_without_origins_witness :
    ∃ s st', get_settings ⟨none, none⟩
        { env := [("GOOGLE_CLOUD_PROJECT", "!! arbitrary bytes !!"),
                  ("SOME_OTHER_VAR", "junk")], cache := none }
      = Except.ok (s, st') :=
  c5_no_failure_without_origins ⟨none, none⟩
    [("GOOGLE_CLOUD_PROJECT", "!! arbitrary bytes !!"),
     ("SOME_OTHER_VAR", "junk")] rfl

end FastApiServer

namespace FastApiServer

/-- C6 as stated is false: pydantic matches field names against environment
variable names case-insensitively, so in a process whose environment binds
the lower-case alias `google_cloud_project = "x"` while the variable
`GOOGLE_CLOUD_PROJECT` itself is unset (exact lookup yields nothing), the
loaded `google_cloud_project` is `some "x"`, not the optional-empty value
the claim demands. -/
theorem c6_counterexample :
    getenv [("google_cloud_project", "x")] "GOOGLE_CLOUD_PROJECT" = none
    ∧ Except.map (fun r => r.1.google_cloud_project)
        (get_settings (importSettingsModule [("google_cloud_project", "x")])
          { env := [("google_cloud_project", "x")], cache := none })
      = Except.ok (some "x")
    ∧ some "x" ≠ (none : Option String) :=
  ⟨rfl, rfl, by decide⟩

/-- C6 amended: for a process whose environment carries upper-case variable
names (the POSIX convention — ruling out lower-case aliases, which pydantic's
case-insensitive matching would also accept into the field) and is unchanged
between module import and the first `get_settings()` call: when
`GOOGLE_CLOUD_PROJECT` is unset the loaded `google_cloud_project` is the
optional-empty value, and when it is set to a string the field equals that
string; likewise `DEFAULT_REGION` and `default_region`. -/
theorem c6_optional_env_fields (env : Env) (s : Settings) (st' : ProcState)
    (hkeys : ∀ p ∈ env, toUpperStr p.1 = p.1)
    (h : get_settings (importSettingsModule env) { env := env, cache := none }
      = Except.ok (s, st')) :
    (getenv env "GOOGLE_CLOUD_PROJECT" = none → s.google_cloud_project = none)
    ∧ (∀ v, getenv env "GOOGLE_CLOUD_PROJECT" = some v →
        s.google_cloud_project = some v)
    ∧ (getenv env "DEFAULT_REGION" = none → s.default_region = none)
    ∧ (∀ v, getenv env "DEFAULT_REGION" = some v → s.default_region = some v) := by
  have hs := get_settings_first_call (importSettingsModule env) env s st' h
  obtain ⟨hg, hd⟩ := Settings.construct_optional_fields _ _ _ hs
  have hci_g : getenvCI env "google_cloud_project"
      = getenv env "GOOGLE_CLOUD_PROJECT" := by
    rw [getenvCI_eq_getenv_of_upper env _ hkeys]
    exact rfl
  have hci_d : getenvCI env "default_region" = getenv env "DEFAULT_REGION" := by
    rw [getenvCI_eq_getenv_of_upper env _ hkeys]
    exact rfl
  rw [hci_g] at hg
  rw [hci_d] at hd
  refine ⟨?_, ?_, ?_, ?_⟩
  · intro hn; rw [hg, hn]; exact hn
  · intro v hv; rw [hg, hv]; rfl
  · intro hn; rw [hd, hn]; exact hn
  · intro v hv; rw [hd, hv]; rfl

/-- Witness for C6 at the environment binding `GOOGLE_CLOUD_PROJECT` to
"my-proj" and `DEFAULT_REGION` to "us-central1". -/
theorem c6_optional_env_fields_witness :
    Settings.google_cloud_project
        ⟨"Sample API", "0.1.0", [], some "my-proj", some "us-central1"⟩
      = some "my-proj" :=
  (c6_optional_env_fields
    [("GOOGLE_CLOUD_PROJECT", "my-proj"), ("DEFAULT_REGION", "us-central1")]
    ⟨"Sample API", "0.1.0", [], some "my-proj", some "us-central1"⟩
    ⟨[("GOOGLE_CLOUD_PROJECT", "my-proj"), ("DEFAULT_REGION", "us-central1")],
      some ⟨"Sample API", "0.1.0", [], some "my-proj", some "us-central1"⟩⟩
    (by decide) rfl).2.1 "my-proj" rfl

/-- C8: the settings value observable through `get_settings`, once
constructed, is never replaced (a call in a state whose cache holds `s`
returns `s` and leaves `s` cached); request dispatch never alters the
process state; and the heartbeat message is the constant literal "alive",
derived from no external or mutable state. -/
theorem c8_settings_immutable_heartbeat_constant :
    (∀ snap st s r st', st.cache = some s →
      get_settings snap st = Except.ok (r, st') → r = s ∧ st'.cache = some s)
    ∧ (∀ st req res st', handleRequest st req = some (res, st') → st' = st)
    ∧ heartbeat.message = "alive" := by
  refine ⟨?_, ?_, rfl⟩
  · intro snap st s r st' hc h
    unfold get_settings at h
    rw [hc] at h
    cases h
    exact ⟨rfl, hc⟩
  · intro st req res st' h
    unfold handleRequest at h
    by_cases c : (req.method == "GET" && req.path == "/api/heartbeat") = true
    · rw [if_pos c] at h; cases h; rfl
    · rw [if_neg c] at h; cases h

/-- Witness for C8: a `get_settings` call in a state whose cache already
holds the default settings. -/
theorem c8_settings_immutable_witness :
    defaultSettings = defaultSettings
    ∧ ProcState.cache { env := [], cache := some defaultSettings }
      = some defaultSettings :=
  c8_settings_immutable_heartbeat_constant.1 ⟨none, none⟩
    { env := [], cache := some defaultSettings } defaultSettings
    defaultSettings { env := [], cache := some defaultSettings } rfl rfl

end FastApiServer
